import Mathlib

/-!
Verification of the multi-resolution optical-flow training/inference pipeline
(`main.py` of PWC-Net_pytorch): a shallow embedding of the ground-truth
pyramid builder, the training-loop control flow (batch gate, epoch rollover,
input normalization, startup argument checks), the inference center crop and
resize dispatch, and the CLI mode dispatch, together with theorems settling
the specification claims about them.
-/

namespace PWC

/-- A dense flow field: rows of per-pixel `(dx, dy)` displacements.
Rationals stand in for the float values; the claims here are about shapes
and exact arithmetic structure, not rounding. -/
abbrev FlowField := List (List (ℚ × ℚ))

/-- Group a list into pairs of consecutive elements, dropping a trailing
odd element: the index structure of kernel-2, stride-2 pooling with no
padding (`F.avg_pool2d(x, 2)` truncates remainder rows/columns). -/
def chunk2 {α : Type} : List α → List (α × α)
  | a :: b :: rest => (a, b) :: chunk2 rest
  | _ => []

/-- Mean of one 2x2 block of displacements.  The block arrives as
`((topLeft, botLeft), (topRight, botRight))` after zipping a row pair
column-wise and chunking the columns in twos. -/
def avg4 (cp : ((ℚ × ℚ) × (ℚ × ℚ)) × ((ℚ × ℚ) × (ℚ × ℚ))) : ℚ × ℚ :=
  ((cp.1.1.1 + cp.1.2.1 + cp.2.1.1 + cp.2.2.1) / 4,
   (cp.1.1.2 + cp.1.2.2 + cp.2.1.2 + cp.2.2.2) / 4)

/-- `F.avg_pool2d(x, 2)`: kernel 2, stride 2, no padding.  Output pixel
`(i, j)` is the mean of input pixels `(2i..2i+1, 2j..2j+1)`; remainder
rows/columns are truncated. -/
def avgPool2x2 (f : FlowField) : FlowField :=
  (chunk2 f).map fun rp => (chunk2 (rp.1.zip rp.2)).map avg4

/-- All rows of the field have width `W`. -/
def wellFormed (W : Nat) (f : FlowField) : Prop := ∀ r ∈ f, r.length = W

/-- The loop body of the ground-truth pyramid construction
(`main.py` lines 205-209): `x = F.avg_pool2d(x, 2)` then
`flow_gt_pyramid.insert(0, x)`, repeated. -/
def pyramidLoopAux (x : FlowField) (acc : List FlowField) : Nat → List FlowField
  | 0 => acc
  | Nat.succ n => pyramidLoopAux (avgPool2x2 x) (avgPool2x2 x :: acc) n

/-- `flow_gt_pyramid` as built in `train`: start from `flow_gt`, pool and
prepend `num_levels` times. -/
def buildGtPyramid (flow_gt : FlowField) (num_levels : Nat) : List FlowField :=
  pyramidLoopAux flow_gt [] num_levels

/-- A concrete 4x4 flow field used to instantiate the pyramid theorems. -/
def sampleField4 : FlowField :=
  [[(0, 1), (1, 2), (2, 3), (3, 4)],
   [(4, 5), (5, 6), (6, 7), (7, 8)],
   [(8, 9), (9, 10), (10, 11), (11, 12)],
   [(12, 13), (13, 14), (14, 15), (15, 16)]]

/-- Channel normalization as written in `train` (`main.py` lines 192-201):
`r = (img[:,1] - 0.485) / 0.229`, `g = (img[:,1] - 0.456) / 0.224`,
`b = (img[:,2] - 0.406) / 0.225`, then `stack([r, g, b])`.  Modelled
per pixel; note the source reads channel 1 for both `r` and `g`. -/
def applyInputNorm (c0 c1 c2 : ℚ) : ℚ × ℚ × ℚ :=
  ((c1 - 485/1000) / (229/1000),
   (c1 - 456/1000) / (224/1000),
   (c2 - 406/1000) / (225/1000))

/-- Modelled from the spec: canonical per-channel normalization, output
channel `i` computed from input channel `i` with that channel's fixed mean
and standard deviation. -/
def normalizeSpec (c0 c1 c2 : ℚ) : ℚ × ℚ × ℚ :=
  ((c0 - 485/1000) / (229/1000),
   (c1 - 456/1000) / (224/1000),
   (c2 - 406/1000) / (225/1000))

/-- Observable actions of one iteration of the training loop body
(`main.py` lines 176-269), after the batch has been pulled. -/
structure StepTrace where
  skippedBatch : Bool
  normalizedInput : Bool
  forwardRun : Bool
  backwardRun : Bool
  optimizerStepRun : Bool
  /-- `none` when no summary is due this step; otherwise the per-level
  `(flow, gt)` pairs enumerated by `zip(flow_pyramid, flow_gt_pyramid)`
  at lines 247 and 257. -/
  summaryPairs : Option (List (FlowField × FlowField))
  /-- whether the weights-length precondition is (re-)evaluated inside
  the loop body; the source's loop contains no such assert. -/
  lengthCheckInStep : Bool
  deriving DecidableEq

/-- One iteration of the training loop body: `if src_img.size(0) !=
args.batch_size: continue` gates everything after the batch pull; otherwise
normalization (when enabled), forward, loss, backward and `optimizer.step()`
run unconditionally, and a due summary enumerates
`zip(flow_pyramid, flow_gt_pyramid)`. -/
def trainStepTrace (batchSize : Nat) (inputNormOn : Bool) (sampleCount : Nat)
    (flow_pyramid flow_gt_pyramid : List FlowField) (summaryDue : Bool) :
    StepTrace :=
  if sampleCount ≠ batchSize then
    { skippedBatch := true, normalizedInput := false, forwardRun := false,
      backwardRun := false, optimizerStepRun := false, summaryPairs := none,
      lengthCheckInStep := false }
  else
    { skippedBatch := false, normalizedInput := inputNormOn,
      forwardRun := true, backwardRun := true, optimizerStepRun := true,
      summaryPairs :=
        if summaryDue then some (flow_pyramid.zip flow_gt_pyramid) else none,
      lengthCheckInStep := false }

/-- Per-step data fed to the loop: the pulled batch's sample count, the
model's predicted pyramid, the built ground-truth pyramid, and whether a
summary is due. -/
structure StepData where
  sampleCount : Nat
  flowPyr : List FlowField
  gtPyr : List FlowField
  summaryDue : Bool

/-- The startup argument check for train mode (`main.py` line 111):
`assert len(args.weights) == len(args.lv_chs) == args.num_levels`. -/
def checkTrainArgs (weightsLen lvChsLen numLevels : Nat) : Bool :=
  weightsLen == lvChsLen && lvChsLen == numLevels

/-- The train-mode run as dispatched by `main`: the argument check runs
once, before `train` is entered; on failure the assert terminates the
process and no step executes, otherwise every step of the loop runs with
no further length check. -/
def mainTrainRun (weightsLen lvChsLen numLevels batchSize : Nat)
    (inputNormOn : Bool) (steps : List StepData) :
    Except String (List StepTrace) :=
  if checkTrainArgs weightsLen lvChsLen numLevels then
    .ok (steps.map fun d =>
      trainStepTrace batchSize inputNormOn d.sampleCount d.flowPyr d.gtPyr
        d.summaryDue)
  else
    .error "assert len(args.weights) == len(args.lv_chs) == args.num_levels"

/-- A one-level pyramid over a 1x1 field, for concrete instantiation. -/
def pyrDepth1 : List FlowField := [[[(0, 0)]]]

/-- A two-level pyramid (a 1x1 field then a 2x2 field), for concrete
instantiation. -/
def pyrDepth2 : List FlowField :=
  [[[(0, 0)]], [[(0, 0), (0, 0)], [(0, 0), (0, 0)]]]

/-- One batch pull of the training loop at a given step index
(`main.py` lines 179-183): when `step % iter_per_epoch == 0` the iterator
is recreated from the loader (capacity `iter_per_epoch` batches) before the
pull; the pull itself consumes one batch, failing iff the current iterator
is exhausted. The state is the number of batches the current iterator can
still yield. -/
def iterPull (iter_per_epoch step remaining : Nat) : Option Nat :=
  if (if step % iter_per_epoch = 0 then iter_per_epoch else remaining) = 0
  then none
  else some ((if step % iter_per_epoch = 0 then iter_per_epoch else remaining) - 1)

/-- Run the batch pulls of consecutive steps `s, s+1, ..., s+n-1`,
threading the iterator state; `none` as soon as a pull fails. -/
def runTrainPulls (iter_per_epoch : Nat) : Nat → Nat → Nat → Option Nat
  | _, 0, r => some r
  | s, Nat.succ n, r =>
    match iterPull iter_per_epoch s r with
    | none => none
    | some r2 => runTrainPulls iter_per_epoch (s + 1) n r2

/-- `StaticCenterCrop` from `pred` (`main.py` lines 284-290):
`img[(h-th)//2:(h+th)//2, (w-tw)//2:(w+tw)//2, :]`, with `(h, w)` the
stored image size and `(th, tw)` the stored crop size. -/
def staticCenterCrop {α : Type} (h w th tw : Nat) (img : List (List α)) :
    List (List α) :=
  ((img.drop ((h - th) / 2)).take ((h + th) / 2 - (h - th) / 2)).map fun r =>
    (r.drop ((w - tw) / 2)).take ((w + tw) / 2 - (w - tw) / 2)

/-- A concrete 3x3 image for instantiating the crop theorem. -/
def sampleImage3 : List (List Nat) :=
  [[0, 1, 2], [3, 4, 5], [6, 7, 8]]

/-- A second concrete 3x3 image (the target frame of the pair). -/
def sampleImage3b : List (List Nat) :=
  [[10, 11, 12], [13, 14, 15], [16, 17, 18]]

/-- Which resize is applied to the image pair in `pred`. -/
inductive ResizeAction where
  | byShape (shape : List Int)
  | byScale (scale : ℚ)
  | noResize
  deriving DecidableEq

/-- The resize dispatch of `pred` (`main.py` lines 299-304):
`if args.resize_shape is not None: ... elif args.resize_scale is not None:
...` — an if/elif chain over the two options. -/
def resizeDispatch (resize_shape : Option (List Int))
    (resize_scale : Option ℚ) : ResizeAction :=
  match resize_shape with
  | some s => ResizeAction.byShape s
  | none =>
    match resize_scale with
    | some c => ResizeAction.byScale c
    | none => ResizeAction.noResize

/-- Arguments registered on the top-level parser (`main.py` lines 40-41),
present in every parsed namespace. -/
def publicArgNames : List String := ["search_range", "device"]

/-- Arguments registered on the train subparser only
(`main.py` lines 47-85). -/
def trainArgNames : List String :=
  ["crop_type", "crop_shape", "resize_shape", "resize_scale", "num_workers",
   "batch_size", "dataset_dir", "dataset", "output_level", "input_norm",
   "corr", "num_levels", "lv_chs", "corr_activation", "use_context_network",
   "use_warping_layer", "weights", "epsilon", "q", "loss", "optimizer",
   "lr", "momentum", "beta", "weight_decay", "total_step", "log_dir",
   "summary_interval", "log_interval", "checkpoint_interval", "max_output"]

/-- Arguments registered on the pred subparser only
(`main.py` lines 91-93). -/
def predArgNames : List String := ["input", "output", "load"]

/-- Arguments registered on the eval subparser only (`main.py` line 99). -/
def evalArgNames : List String := ["load"]

/-- The attribute names present on the namespace returned by
`parse_args()` for a given selected subcommand: the top-level parser's
arguments, `subparser_name` and `func` (from `set_defaults`), plus the
selected subparser's own arguments. -/
def namespaceAttrs (mode : String) : List String :=
  publicArgNames ++ ["subparser_name", "func"] ++
    (if mode = "train" then trainArgNames
     else if mode = "pred" then predArgNames
     else if mode = "eval" then evalArgNames
     else [])

/-- Attribute lookup on a parsed namespace. -/
def hasAttr (mode attr : String) : Bool := (namespaceAttrs mode).contains attr

/-- Outcome of entering the crop/resize section of `pred`
(`main.py` line 295): the very first operation reads `args.crop_shape`,
which raises `AttributeError` when the attribute is absent from the
namespace; only if it is present does the section proceed. -/
inductive PredPrepOutcome where
  | attributeError (attrName : String)
  | proceeded
  deriving DecidableEq

/-- Entry into the crop/resize branch of `pred`: evaluate
`args.crop_shape`, the first attribute the branch touches. -/
def predCropResizeEntry (mode : String) : PredPrepOutcome :=
  if hasAttr mode "crop_shape" then PredPrepOutcome.proceeded
  else PredPrepOutcome.attributeError "crop_shape"

/-- The subcommand names registered on the subparsers object
(`main.py` lines 34-36). -/
def registeredModes : List String := ["train", "pred", "eval"]

/-- The mode function bound by `set_defaults(func = ...)` for each
registered subcommand: `train` to `train`, `pred` to `pred`, `eval` to
`test`. -/
def subcommandFunc (mode : String) : Option String :=
  if mode = "train" then some "train"
  else if mode = "pred" then some "pred"
  else if mode = "eval" then some "test"
  else none

/-- Outcome of the argument-validation chain and dispatch in `main`
(`main.py` lines 110-124). -/
inductive MainOutcome where
  | invoked (funcName : String)
  | runtimeErrorRaised
  | assertFailed
  | testBranchAttrError
  deriving DecidableEq

/-- The validation chain of `main`: `if subparser_name == 'train'` (train
asserts), `elif == 'pred'` (pred asserts), `elif == 'test'` (reads the
nonexistent `args.train`), `else raise RuntimeError`; only when the chain
falls through without raising is `args.func(args)` called. -/
def validateAndDispatch (subparser_name : Option String)
    (trainChecksPass predChecksPass : Bool) : MainOutcome :=
  match subparser_name with
  | some n =>
    if n = "train" then
      if trainChecksPass then
        match subcommandFunc n with
        | some f => MainOutcome.invoked f
        | none => MainOutcome.runtimeErrorRaised
      else MainOutcome.assertFailed
    else if n = "pred" then
      if predChecksPass then
        match subcommandFunc n with
        | some f => MainOutcome.invoked f
        | none => MainOutcome.runtimeErrorRaised
      else MainOutcome.assertFailed
    else if n = "test" then MainOutcome.testBranchAttrError
    else MainOutcome.runtimeErrorRaised
  | none => MainOutcome.runtimeErrorRaised

end PWC

namespace PWC

theorem chunk2_length {α : Type} (l : List α) :
    (chunk2 l).length = l.length / 2 := by
  induction l using chunk2.induct with
  | case1 a b rest ih => simp [chunk2, ih]; omega
  | case2 l h => cases l with
    | nil => simp [chunk2]
    | cons a t => cases t with
      | nil => simp [chunk2]
      | cons b r => exact absurd rfl (h a b r)

theorem chunk2_mem {α : Type} {l : List α} {p : α × α} (hp : p ∈ chunk2 l) :
    p.1 ∈ l ∧ p.2 ∈ l := by
  induction l using chunk2.induct with
  | case1 a b rest ih =>
      simp only [chunk2, List.mem_cons] at hp
      rcases hp with rfl | hp
      · constructor <;> simp
      · rcases ih hp with ⟨h1, h2⟩
        constructor <;> simp [h1, h2]
  | case2 l h => cases l with
    | nil => simp [chunk2] at hp
    | cons a t => cases t with
      | nil => simp [chunk2] at hp
      | cons b r => exact absurd rfl (h a b r)

theorem avgPool2x2_length (f : FlowField) :
    (avgPool2x2 f).length = f.length / 2 := by
  simp [avgPool2x2, chunk2_length]

theorem avgPool2x2_wellFormed {W : Nat} {f : FlowField} (hf : wellFormed W f) :
    wellFormed (W / 2) (avgPool2x2 f) := by
  intro r hr
  simp only [avgPool2x2, List.mem_map] at hr
  obtain ⟨rp, hrp, rfl⟩ := hr
  obtain ⟨h1, h2⟩ := chunk2_mem hrp
  have e1 := hf _ h1
  have e2 := hf _ h2
  simp [chunk2_length, List.length_zip, e1, e2]

theorem pyramidLoopAux_eq (x : FlowField) (acc : List FlowField) (n : Nat) :
    pyramidLoopAux x acc n =
      ((List.range n).map fun i => avgPool2x2^[n - i] x) ++ acc := by
  induction n generalizing x acc with
  | zero => simp [pyramidLoopAux]
  | succ n ih =>
      rw [pyramidLoopAux, ih]
      rw [List.range_succ, List.map_append]
      simp only [List.map_cons, List.map_nil]
      rw [List.append_assoc]
      congr 1
      · apply List.map_congr_left
        intro i hi
        rw [List.mem_range] at hi
        have : n + 1 - i = (n - i) + 1 := by omega
        rw [this, Function.iterate_succ_apply]
      · simp

theorem buildGtPyramid_eq (g : FlowField) (N : Nat) :
    buildGtPyramid g N = (List.range N).map fun i => avgPool2x2^[N - i] g := by
  simp [buildGtPyramid, pyramidLoopAux_eq]

theorem buildGtPyramid_length (g : FlowField) (N : Nat) :
    (buildGtPyramid g N).length = N := by
  simp [buildGtPyramid_eq]

theorem buildGtPyramid_getD (g : FlowField) (N i : Nat) (hi : i < N) :
    (buildGtPyramid g N).getD i [] = avgPool2x2^[N - i] g := by
  rw [buildGtPyramid_eq]
  rw [List.getD_eq_getElem?_getD]
  rw [List.getElem?_map]
  rw [List.getElem?_range hi]
  rfl

theorem iterate_pool_length (g : FlowField) (k : Nat) :
    (avgPool2x2^[k] g).length = g.length / 2 ^ k := by
  induction k with
  | zero => simp
  | succ k ih =>
      rw [Function.iterate_succ_apply', avgPool2x2_length, ih,
        Nat.div_div_eq_div_mul, pow_succ]

theorem iterate_pool_wellFormed {W : Nat} {g : FlowField} (hg : wellFormed W g)
    (k : Nat) : wellFormed (W / 2 ^ k) (avgPool2x2^[k] g) := by
  induction k with
  | zero => simpa using hg
  | succ k ih =>
      rw [Function.iterate_succ_apply']
      have := avgPool2x2_wellFormed ih
      rwa [Nat.div_div_eq_div_mul, ← pow_succ] at this

/-- C1: for every full-resolution ground-truth flow field of height `H ≥ 1`
(rows all of width `W`) and every depth `N ≥ 1`, the ground-truth pyramid
built in the training loop has exactly `N` levels ordered coarsest to
finest; the level at index `i` has height `H / 2 ^ (N - i)` and width
`W / 2 ^ (N - i)` (floor division); each level is one 2x2 average-pooling
step away from the next finer one (the finest level being one pooling step
from the original); and the original full-resolution field is not itself a
member of the pyramid. -/
theorem gtPyramid_depth_dims_order (g : FlowField) (W N : Nat)
    (hwf : wellFormed W g) (hN : 1 ≤ N) (hH : 1 ≤ g.length) :
    (buildGtPyramid g N).length = N ∧
    (∀ i, i < N →
      ((buildGtPyramid g N).getD i []).length = g.length / 2 ^ (N - i) ∧
      wellFormed (W / 2 ^ (N - i)) ((buildGtPyramid g N).getD i [])) ∧
    (∀ i, i + 1 < N →
      (buildGtPyramid g N).getD i []
        = avgPool2x2 ((buildGtPyramid g N).getD (i + 1) [])) ∧
    (buildGtPyramid g N).getD (N - 1) [] = avgPool2x2 g ∧
    g ∉ buildGtPyramid g N := by
  refine ⟨buildGtPyramid_length g N, ?_, ?_, ?_, ?_⟩
  · intro i hi
    rw [buildGtPyramid_getD g N i hi]
    exact ⟨iterate_pool_length g (N - i), iterate_pool_wellFormed hwf (N - i)⟩
  · intro i hi
    rw [buildGtPyramid_getD g N i (by omega),
      buildGtPyramid_getD g N (i + 1) hi]
    have h1 : N - i = (N - (i + 1)) + 1 := by omega
    rw [h1, Function.iterate_succ_apply']
  · rw [buildGtPyramid_getD g N (N - 1) (by omega)]
    have h1 : N - (N - 1) = 1 := by omega
    rw [h1]
    simp
  · intro hmem
    rw [buildGtPyramid_eq] at hmem
    rw [List.mem_map] at hmem
    obtain ⟨i, hi, hgi⟩ := hmem
    rw [List.mem_range] at hi
    have hk : 1 ≤ N - i := by omega
    have hlen : g.length = g.length / 2 ^ (N - i) := by
      conv_lhs => rw [← hgi]
      exact iterate_pool_length g (N - i)
    have h2 : (2 : Nat) ≤ 2 ^ (N - i) := by
      calc (2 : Nat) = 2 ^ 1 := by norm_num
      _ ≤ 2 ^ (N - i) := Nat.pow_le_pow_right (by norm_num) hk
    have hle : g.length / 2 ^ (N - i) ≤ g.length / 2 :=
      Nat.div_le_div_left h2 (by norm_num)
    have hlt : g.length / 2 < g.length := Nat.div_lt_self (by omega) (by norm_num)
    omega

/-- Witness for C1 at the 4x4 sample field with depth 2. -/
theorem gtPyramid_depth_dims_order_app :
    (buildGtPyramid sampleField4 2).length = 2 ∧
    sampleField4 ∉ buildGtPyramid sampleField4 2 :=
  ⟨(gtPyramid_depth_dims_order sampleField4 4 2
      (by unfold wellFormed; decide) (by decide) (by decide)).1,
   (gtPyramid_depth_dims_order sampleField4 4 2
      (by unfold wellFormed; decide) (by decide) (by decide)).2.2.2.2⟩

/-- C2 counterexample: at a predicted pyramid of depth 2 and a ground-truth
pyramid of depth 1 (full batch, summary due), the loop body performs the
optimizer step and the per-level summary enumeration silently truncates to
the shorter pyramid (one level), so no explicit error is raised and the
optimizer step is not skipped. -/
theorem depthMismatch_not_rejected_cex :
    (trainStepTrace 8 false 8 pyrDepth2 pyrDepth1 true).optimizerStepRun
        = true ∧
    (trainStepTrace 8 false 8 pyrDepth2 pyrDepth1 true).summaryPairs
        = some (pyrDepth2.zip pyrDepth1) ∧
    pyrDepth2.length = 2 ∧ pyrDepth1.length = 1 ∧
    (pyrDepth2.zip pyrDepth1).length = 1 := by
  refine ⟨rfl, rfl, rfl, rfl, rfl⟩

/-- C2 (amended): for every training step whose predicted and ground-truth
pyramids have different depths (and whose batch passes the size gate), the
pipeline raises no error: the optimizer step runs regardless, and the
per-level loss/summary enumeration is the zip of the two pyramids, which
silently truncates the longer pyramid to the depth of the shorter. -/
theorem depthMismatch_silently_truncated (bs : Nat) (normOn : Bool)
    (pp gp : List FlowField) (hne : pp.length ≠ gp.length) :
    (trainStepTrace bs normOn bs pp gp true).optimizerStepRun = true ∧
    (trainStepTrace bs normOn bs pp gp true).summaryPairs = some (pp.zip gp) ∧
    (pp.zip gp).length = min pp.length gp.length ∧
    (pp.zip gp).length < max pp.length gp.length := by
  refine ⟨?_, ?_, ?_, ?_⟩
  · simp [trainStepTrace]
  · simp [trainStepTrace]
  · exact List.length_zip pp gp
  · rw [List.length_zip]
    omega

/-- Witness for C2 (amended) at depths 2 and 1. -/
theorem depthMismatch_silently_truncated_app :
    (trainStepTrace 8 false 8 pyrDepth2 pyrDepth1 true).optimizerStepRun
        = true ∧
    (trainStepTrace 8 false 8 pyrDepth2 pyrDepth1 true).summaryPairs
        = some (pyrDepth2.zip pyrDepth1) ∧
    (pyrDepth2.zip pyrDepth1).length = min pyrDepth2.length pyrDepth1.length ∧
    (pyrDepth2.zip pyrDepth1).length < max pyrDepth2.length pyrDepth1.length :=
  depthMismatch_silently_truncated 8 false pyrDepth2 pyrDepth1 (by decide)

/-- C3: a pulled batch whose sample count differs from the configured batch
size is discarded: the loop body runs no normalization, no forward pass, no
backward pass and no optimizer update for it, emits no summary, and the
batch is never padded (the step does nothing at all). -/
theorem partialBatch_discarded (bs : Nat) (normOn : Bool) (sc : Nat)
    (pp gp : List FlowField) (sd : Bool) (h : sc ≠ bs) :
    trainStepTrace bs normOn sc pp gp sd =
      { skippedBatch := true, normalizedInput := false, forwardRun := false,
        backwardRun := false, optimizerStepRun := false, summaryPairs := none,
        lengthCheckInStep := false } := by
  simp [trainStepTrace, h]

/-- Witness for C3 at sample count 5 against batch size 8. -/
theorem partialBatch_discarded_app :
    trainStepTrace 8 true 5 pyrDepth2 pyrDepth2 true =
      { skippedBatch := true, normalizedInput := false, forwardRun := false,
        backwardRun := false, optimizerStepRun := false, summaryPairs := none,
        lengthCheckInStep := false } :=
  partialBatch_discarded 8 true 5 pyrDepth2 pyrDepth2 true (by decide)

/-- C4: the claim says output channel `i` is computed from input channel
`i` for each `i` in 0, 1, 2; the code instead reads input channel 1 for
output channel 0 (`r = (src_img[:,1] - 0.485) / 0.229`), so on a pixel with
channels `(0, 1, 0)` the code's output differs from the claimed
per-channel normalization, whose red output would use input channel 0;
indeed the code's red output is insensitive to input channel 0 entirely. -/
theorem inputNorm_channel_bug :
    applyInputNorm 0 1 0 ≠ normalizeSpec 0 1 0 ∧
    (applyInputNorm 0 1 0).1 = ((1 : ℚ) - 485/1000) / (229/1000) ∧
    (normalizeSpec 0 1 0).1 = ((0 : ℚ) - 485/1000) / (229/1000) ∧
    (∀ c0 c0' c1 c2 : ℚ,
      (applyInputNorm c0 c1 c2).1 = (applyInputNorm c0' c1 c2).1) := by
  refine ⟨?_, rfl, rfl, fun c0 c0' c1 c2 => rfl⟩
  intro h
  have h1 := congrArg Prod.fst h
  simp only [applyInputNorm, normalizeSpec] at h1
  norm_num at h1

/-- C8: the weights-length precondition
(`len(weights) == len(lv_chs) == num_levels`) is evaluated once by `main`
before any training step: when it fails, the run terminates with the
assertion error and no step executes; when it holds, every step of the
loop runs and no step re-evaluates the length check. -/
theorem weightsLength_checked_once_at_startup (wl cl nl bs : Nat)
    (normOn : Bool) (steps : List StepData) :
    (checkTrainArgs wl cl nl = false →
      mainTrainRun wl cl nl bs normOn steps = Except.error
        "assert len(args.weights) == len(args.lv_chs) == args.num_levels") ∧
    (checkTrainArgs wl cl nl = true →
      mainTrainRun wl cl nl bs normOn steps = Except.ok
        (steps.map fun d =>
          trainStepTrace bs normOn d.sampleCount d.flowPyr d.gtPyr
            d.summaryDue) ∧
      ∀ t ∈ steps.map fun d =>
          trainStepTrace bs normOn d.sampleCount d.flowPyr d.gtPyr
            d.summaryDue,
        t.lengthCheckInStep = false) ∧
    (checkTrainArgs wl cl nl = true ↔ (wl = cl ∧ cl = nl)) := by
  refine ⟨?_, ?_, ?_⟩
  · intro h
    simp [mainTrainRun, h]
  · intro h
    refine ⟨by simp [mainTrainRun, h], ?_⟩
    intro t ht
    rw [List.mem_map] at ht
    obtain ⟨d, _, rfl⟩ := ht
    unfold trainStepTrace
    split <;> rfl
  · simp [checkTrainArgs]

/-- Witness for C8: mismatched lengths 6, 5, 6 terminate the run with the
assertion error before any step. -/
theorem weightsLength_checked_once_at_startup_app :
    mainTrainRun 6 5 6 8 false [] = Except.error
      "assert len(args.weights) == len(args.lv_chs) == args.num_levels" :=
  (weightsLength_checked_once_at_startup 6 5 6 8 false []).1 (by decide)

theorem iterPull_reset (L s r : Nat) (hs : s % L = 0) (hL : L ≠ 0) :
    iterPull L s r = some (L - 1) := by
  unfold iterPull
  rw [if_pos hs, if_neg hL]

theorem iterPull_cont (L s r : Nat) (hs : s % L ≠ 0) (hr : r ≠ 0) :
    iterPull L s r = some (r - 1) := by
  unfold iterPull
  rw [if_neg hs, if_neg hr]

theorem runTrainPulls_isSome (L : Nat) (hL : 1 ≤ L) :
    ∀ (n s r : Nat), (s % L = 0 ∨ L - s % L ≤ r) →
      (runTrainPulls L s n r).isSome := by
  intro n
  induction n with
  | zero =>
      intro s r _
      simp [runTrainPulls]
  | succ n ih =>
      intro s r hinv
      have hmlt : s % L < L := Nat.mod_lt s (by omega)
      by_cases h0 : s % L = 0
      · have hpull : iterPull L s r = some (L - 1) :=
          iterPull_reset L s r h0 (by omega)
        rw [runTrainPulls, hpull]
        apply ih
        by_cases hL1 : L = 1
        · left
          subst hL1
          omega
        · right
          have e : (s + 1) % L = 1 := by
            rw [Nat.add_mod, h0, Nat.zero_add,
              Nat.mod_eq_of_lt (show 1 < L by omega),
              Nat.mod_eq_of_lt (show 1 < L by omega)]
          omega
      · have hm1 : 1 ≤ s % L := by omega
        have hL2 : 2 ≤ L := by omega
        have hr1 : 1 ≤ r := by omega
        have hpull : iterPull L s r = some (r - 1) :=
          iterPull_cont L s r h0 (by omega)
        rw [runTrainPulls, hpull]
        apply ih
        have e : (s + 1) % L = (s % L + 1) % L := by
          rw [Nat.add_mod, Nat.mod_eq_of_lt (show 1 < L by omega)]
        by_cases hlt : s % L + 1 < L
        · right
          rw [e, Nat.mod_eq_of_lt hlt]
          omega
        · left
          have heq : s % L + 1 = L := by omega
          rw [e, heq, Nat.mod_self]

/-- C5: in the training loop, a fresh epoch iterator over
`iter_per_epoch ≥ 1` batches is created before step 1, and the loop
recreates it exactly at the steps where `step % iter_per_epoch == 0`,
before the pull of that step; consequently the batch pull succeeds at every
step from 1 to `total_step` — pulling never fails from iterator exhaustion,
so the loop presents an unbounded logical stream of batches over the finite
dataset. -/
theorem epochRollover_never_exhausts (L total : Nat) (hL : 1 ≤ L) :
    (runTrainPulls L 1 total L).isSome ∧
    (∀ s r, s % L = 0 → iterPull L s r = some (L - 1)) ∧
    (∀ s r, s % L ≠ 0 → 1 ≤ r → iterPull L s r = some (r - 1)) := by
  refine ⟨?_, ?_, ?_⟩
  · apply runTrainPulls_isSome L hL total 1 L
    by_cases hL1 : L = 1
    · left
      subst hL1
      omega
    · right
      rw [Nat.mod_eq_of_lt (by omega)]
      omega
  · intro s r hs
    exact iterPull_reset L s r hs (by omega)
  · intro s r hs hr
    exact iterPull_cont L s r hs (by omega)

/-- Witness for C5 with two batches per epoch and five steps. -/
theorem epochRollover_never_exhausts_app :
    (runTrainPulls 2 1 5 2).isSome :=
  (epochRollover_never_exhausts 2 5 (by decide)).1

theorem staticCenterCrop_shape {α : Type} (h w th tw : Nat)
    (img : List (List α)) (hlen : img.length = h)
    (hw : ∀ r ∈ img, r.length = w) (hth : th ≤ h) (htw : tw ≤ w) :
    staticCenterCrop h w th tw img
      = ((img.drop ((h - th) / 2)).take th).map
          (fun r => (r.drop ((w - tw) / 2)).take tw) ∧
    (staticCenterCrop h w th tw img).length = th ∧
    (∀ r ∈ staticCenterCrop h w th tw img, r.length = tw) := by
  have e1 : (h + th) / 2 - (h - th) / 2 = th := by omega
  have e2 : (w + tw) / 2 - (w - tw) / 2 = tw := by omega
  have heq : staticCenterCrop h w th tw img
      = ((img.drop ((h - th) / 2)).take th).map
          (fun r => (r.drop ((w - tw) / 2)).take tw) := by
    unfold staticCenterCrop
    rw [e1, e2]
  refine ⟨heq, ?_, ?_⟩
  · rw [heq, List.length_map, List.length_take, List.length_drop, hlen]
    have := Nat.div_le_self (h - th) 2
    omega
  · intro r hr
    rw [heq, List.mem_map] at hr
    obtain ⟨r0, hr0, rfl⟩ := hr
    have hr0' : r0 ∈ img := List.mem_of_mem_drop (List.mem_of_mem_take hr0)
    have hl := hw r0 hr0'
    rw [List.length_take, List.length_drop, hl]
    have := Nat.div_le_self (w - tw) 2
    omega

/-- C6: for images of height `h` and width `w` and a crop shape
`(th, tw)` with `th ≤ h` and `tw ≤ w`, the inference center crop is the
deterministic slice starting at top-left offset
`((h - th) / 2, (w - tw) / 2)` (integer division, per axis) with exactly
`th` rows of exactly `tw` pixels; applying the one cropper to the source
and the target frame of a pair uses that identical offset for both. -/
theorem staticCenterCrop_deterministic {α : Type} (h w th tw : Nat)
    (src tgt : List (List α)) (hsrc : src.length = h)
    (hsrcw : ∀ r ∈ src, r.length = w) (htgt : tgt.length = h)
    (htgtw : ∀ r ∈ tgt, r.length = w) (hth : th ≤ h) (htw : tw ≤ w) :
    (staticCenterCrop h w th tw src
      = ((src.drop ((h - th) / 2)).take th).map
          (fun r => (r.drop ((w - tw) / 2)).take tw) ∧
     (staticCenterCrop h w th tw src).length = th ∧
     (∀ r ∈ staticCenterCrop h w th tw src, r.length = tw)) ∧
    (staticCenterCrop h w th tw tgt
      = ((tgt.drop ((h - th) / 2)).take th).map
          (fun r => (r.drop ((w - tw) / 2)).take tw) ∧
     (staticCenterCrop h w th tw tgt).length = th ∧
     (∀ r ∈ staticCenterCrop h w th tw tgt, r.length = tw)) :=
  ⟨staticCenterCrop_shape h w th tw src hsrc hsrcw hth htw,
   staticCenterCrop_shape h w th tw tgt htgt htgtw hth htw⟩

/-- Witness for C6: cropping the two 3x3 sample frames to 2x2 yields 2x2
results from offset `(0, 0)`. -/
theorem staticCenterCrop_deterministic_app :
    (staticCenterCrop 3 3 2 2 sampleImage3).length = 2 ∧
    (staticCenterCrop 3 3 2 2 sampleImage3b).length = 2 :=
  ⟨(staticCenterCrop_deterministic 3 3 2 2 sampleImage3 sampleImage3b
      (by decide) (by decide) (by decide) (by decide) (by decide)
      (by decide)).1.2.1,
   (staticCenterCrop_deterministic 3 3 2 2 sampleImage3 sampleImage3b
      (by decide) (by decide) (by decide) (by decide) (by decide)
      (by decide)).2.2.1⟩

/-- C7 counterexample: with both an absolute resize shape and a uniform
resize scale configured, `pred` raises no usage error: the if/elif chain
applies the absolute shape resize, silently ignoring the scale. -/
theorem bothResizeOptions_no_error_cex :
    resizeDispatch (some [436, 1024]) (some (1/2))
      = ResizeAction.byShape [436, 1024] := rfl

/-- C7 (amended): whenever both a resize shape and a resize scale are
configured, the inference pipeline detects no error: the absolute shape
resize silently takes precedence and the scale resize is never applied. -/
theorem bothResizeOptions_shape_precedence (s : List Int) (c : ℚ) :
    resizeDispatch (some s) (some c) = ResizeAction.byShape s ∧
    resizeDispatch (some s) (some c) ≠ ResizeAction.byScale c := by
  exact ⟨rfl, by simp [resizeDispatch]⟩

/-- C9: the crop/resize arguments are registered only on the train
subparser, so a pred-mode namespace lacks the `crop_shape`, `resize_shape`
and `resize_scale` attributes while a train-mode namespace has them; the
first operation of `pred`'s crop/resize branch reads `args.crop_shape` and
therefore always raises `AttributeError` in pred mode, before any flow is
computed or persisted. -/
theorem predMode_cropResize_unreachable :
    hasAttr "pred" "crop_shape" = false ∧
    hasAttr "pred" "resize_shape" = false ∧
    hasAttr "pred" "resize_scale" = false ∧
    hasAttr "train" "crop_shape" = true ∧
    hasAttr "train" "resize_shape" = true ∧
    hasAttr "train" "resize_scale" = true ∧
    predCropResizeEntry "pred" = PredPrepOutcome.attributeError "crop_shape" ∧
    predCropResizeEntry "pred" ≠ PredPrepOutcome.proceeded := by decide

/-- C10: the subcommand registered for evaluation is named `eval`, but the
argument-validation chain in `main` compares the selected name against
`test`, which `eval` never matches, so every eval-mode invocation falls
through to the `raise RuntimeError` branch before `args.func(args)` runs:
the bound `test` function is never invoked. -/
theorem evalMode_raises_runtimeError (tc pc : Bool) :
    "eval" ∈ registeredModes ∧
    subcommandFunc "eval" = some "test" ∧
    validateAndDispatch (some "eval") tc pc
      = MainOutcome.runtimeErrorRaised ∧
    ∀ f, validateAndDispatch (some "eval") tc pc ≠ MainOutcome.invoked f := by
  have e : validateAndDispatch (some "eval") tc pc
      = MainOutcome.runtimeErrorRaised := by
    cases tc <;> cases pc <;> decide
  refine ⟨by decide, by decide, e, ?_⟩
  intro f hcontra
  rw [e] at hcontra
  exact MainOutcome.noConfusion hcontra

end PWC
